import Mathlib

/-!
# Verification of the ionic text-input scroll-assist engine

Shallow embedding of the scroll-assist / focus-relocation logic of the
`TextInput` component (`getScrollData`, `getScrollAssistDuration`, the
`initFocus` / `pointerUp` / `beginFocus` closures of `_enableScrollAssist`,
the clear-on-edit logic, and `setFocus`), together with proofs of the
specified properties.

Pixel quantities are modelled as rationals; `Math.round` is modelled as
`jsRound` (round half toward positive infinity, as in JavaScript).
-/

/-- JavaScript `Math.round`: floor of `q + 1/2` (halves round up). -/
def jsRound (q : ℚ) : ℚ := ((⌊q + 1/2⌋ : ℤ) : ℚ)

/-- The fields of `ContentDimensions` consumed by `getScrollData`
(`contentTop`, `contentHeight`, `scrollTop`, `scrollHeight`). -/
structure ContentDimensions where
  contentTop : ℚ
  contentHeight : ℚ
  scrollTop : ℚ
  scrollHeight : ℚ
deriving DecidableEq

/-- The `ScrollData` interface: the scroll plan computed by `getScrollData`. -/
structure ScrollData where
  scrollAmount : ℚ
  scrollTo : ℚ
  scrollPadding : ℚ
  inputSafeY : ℚ
deriving DecidableEq

/-- `getScrollData(inputOffsetTop, inputOffsetHeight, scrollViewDimensions,
keyboardHeight, plaformHeight)`: computes the scroll plan for bringing a
focused input into the safe area above the soft keyboard.  Direct
translation of the source, including the early return for an input fully
inside the safe area, the choice between aligning the input bottom with the
safe-area bottom (when the safe area is taller than the input) or the input
top with the safe-area top, the clamp of the scroll amount to the input
height when the input top is above the safe area, and the unconditional
`scrollPadding = keyboardHeight` on the non-early path. -/
def getScrollData (inputOffsetTop inputOffsetHeight : ℚ)
    (scrollViewDimensions : ContentDimensions)
    (keyboardHeight plaformHeight : ℚ) : ScrollData :=
  let inputTop := inputOffsetTop + scrollViewDimensions.contentTop - scrollViewDimensions.scrollTop
  let inputBottom := inputTop + inputOffsetHeight
  let safeAreaTop := scrollViewDimensions.contentTop
  let safeAreaHeight := (plaformHeight - keyboardHeight - safeAreaTop) / 2
  let safeAreaBottom := safeAreaTop + safeAreaHeight
  if (safeAreaTop ≤ inputTop ∧ inputTop ≤ safeAreaBottom) ∧
      (safeAreaTop ≤ inputBottom ∧ inputBottom ≤ safeAreaBottom) then
    { scrollAmount := 0, scrollTo := 0, scrollPadding := 0, inputSafeY := 0 }
  else
    if safeAreaBottom < inputTop ∨ safeAreaBottom < inputBottom ∨ inputTop < safeAreaTop then
      let scrollAmount0 :=
        if inputOffsetHeight < safeAreaHeight then
          jsRound (safeAreaBottom - inputBottom)
        else
          jsRound (safeAreaTop - inputTop)
      let scrollAmount :=
        if inputTop < safeAreaTop ∧ inputOffsetHeight < scrollAmount0 then
          inputOffsetHeight
        else
          scrollAmount0
      { scrollAmount := scrollAmount,
        scrollTo := scrollViewDimensions.scrollTop - scrollAmount,
        scrollPadding := keyboardHeight,
        inputSafeY := -(inputTop - safeAreaTop) + 4 }
    else
      { scrollAmount := 0,
        scrollTo := scrollViewDimensions.scrollTop - 0,
        scrollPadding := keyboardHeight,
        inputSafeY := 0 }

/-- `SCROLL_ASSIST_SPEED = 0.3` px/ms. -/
def SCROLL_ASSIST_SPEED : ℚ := 3/10

/-- `getScrollAssistDuration(distanceToScroll)`:
`Math.min(400, Math.max(150, |distanceToScroll| / SCROLL_ASSIST_SPEED))`. -/
def getScrollAssistDuration (distanceToScroll : ℚ) : ℚ :=
  let d := |distanceToScroll|
  let duration := d / SCROLL_ASSIST_SPEED
  min 400 (max 150 duration)

/-- The externally visible actions performed by the scroll-assist `initFocus`
closure, in order: `self.setFocus()`, `app.setEnabled(...)`,
`beginFocus(...)` and `content.scrollTo(0, y, duration, ...)`. -/
inductive FocusAction where
  | setFocus : FocusAction
  | setEnabled (enabled : Bool) (duration : Option ℚ) : FocusAction
  | beginFocusCall (shouldFocus : Bool) (inputRelativeY : ℚ) : FocusAction
  | scrollTo (x y duration : ℚ) : FocusAction
deriving DecidableEq

namespace ScrollAssist

/-- The synchronous action trace of the `initFocus` closure of
`_enableScrollAssist` for an input inside a scroll view, paired with
whether the closure aborts with a `TypeError`.  It computes the scroll plan
with `getScrollData`; when `|scrollAmount| < 4` it just sets focus and
re-enables the app.  Otherwise it disables the app for the computed
scroll-assist duration and then: when input cloning is enabled it calls
`beginFocus(true, inputSafeY)`, which is a plain nested `function` reading
`this._native.nativeElement` — its `this` is not the component (the sibling
closures use the captured `self` instead), so the call throws a `TypeError`
after passing the `relocated` guard, and `self.setFocus()` and
`content.scrollTo(...)` never run; when cloning is disabled it sets focus
and starts the scroll animation. -/
def initFocus (inputOffsetTop inputOffsetHeight : ℚ) (dim : ContentDimensions)
    (keyboardHeight plaformHeight : ℚ) (clone : Bool) : List FocusAction × Bool :=
  let scrollData := getScrollData inputOffsetTop inputOffsetHeight dim keyboardHeight plaformHeight
  if |scrollData.scrollAmount| < 4 then
    ([FocusAction.setFocus, FocusAction.setEnabled true none], false)
  else
    let scrollDuration := getScrollAssistDuration scrollData.scrollAmount
    if clone then
      ([FocusAction.setEnabled false (some scrollDuration),
        FocusAction.beginFocusCall true scrollData.inputSafeY], true)
    else
      ([FocusAction.setEnabled false (some scrollDuration),
        FocusAction.setFocus,
        FocusAction.scrollTo 0 scrollData.scrollTo scrollDuration], false)

/-- A pointer coordinate, as produced by `pointerCoord`. -/
structure PointerCoordinates where
  x : ℚ
  y : ℚ
deriving DecidableEq

/-- Modelled from the spec: `hasPointerMoved` (imported from `util/dom`,
which is not among the source files) — whether the pointer displacement
between the recorded pointer-down coordinate and the pointer-up coordinate
reaches the given threshold.  The spec treats a displacement below 8 units
as a tap and a displacement of 8 units or more as a drag, so this holds
exactly when the squared Euclidean displacement reaches the squared
threshold. -/
def hasPointerMoved (threshold : ℚ) (startCoord endCoord : PointerCoordinates) : Bool :=
  threshold ^ 2 ≤ (startCoord.x - endCoord.x) ^ 2 + (startCoord.y - endCoord.y) ^ 2

/-- The externally visible effects of one `pointerUp` invocation. -/
structure PointerUpResult where
  preventDefault : Bool
  stopPropagation : Bool
  initFocusCalled : Bool
deriving DecidableEq

/-- The `pointerUp` closure of `_enableScrollAssist`: when the app is
disabled it swallows the event; otherwise, when the pointer has not moved 8
units from the pointer-down coordinate and the input is not already
focused, it suppresses the default action and begins the focus process;
otherwise it does nothing. -/
def pointerUp (appEnabled : Bool) (coord endCoord : PointerCoordinates)
    (isFocus : Bool) : PointerUpResult :=
  if !appEnabled then
    { preventDefault := true, stopPropagation := true, initFocusCalled := false }
  else if !hasPointerMoved 8 coord endCoord && !isFocus then
    { preventDefault := true, stopPropagation := true, initFocusCalled := true }
  else
    { preventDefault := false, stopPropagation := false, initFocusCalled := false }

/-- The per-field relocation state: the `relocated` flag of the
scroll-assist closure together with the number of `.cloned-input` clone
elements present next to the component. -/
structure RelocState where
  relocated : Bool
  clones : Nat
deriving DecidableEq

/-- How one `beginFocus` invocation ends: an immediate return at the
`relocated === shouldFocus` guard, or a thrown `TypeError`. -/
inductive BeginFocusOutcome where
  | returned : BeginFocusOutcome
  | threw : BeginFocusOutcome
deriving DecidableEq

/-- `beginFocus(shouldFocus, inputRelativeY)`: returns the next relocation
state together with the outcome of the call.  When the guard
`if (relocated === shouldFocus) return;` fires, the state is untouched.
Otherwise the assignment `relocated = shouldFocus;` executes and the next
line, `const focusedInputEle = this._native.nativeElement;`, throws a
`TypeError`: `beginFocus` is a plain nested `function` (its sibling
closures read the captured `self` instead), so its `this` is not the
component and has no `_native`.  The throw happens before
`cloneInputComponent` / `removeClone` and before any transform or opacity
change, so the clone count never changes. -/
def beginFocus (shouldFocus : Bool) (inputRelativeY : ℚ) (s : RelocState) :
    RelocState × BeginFocusOutcome :=
  if s.relocated = shouldFocus then
    (s, BeginFocusOutcome.returned)
  else
    ({ s with relocated := shouldFocus }, BeginFocusOutcome.threw)

end ScrollAssist

namespace TextInput

/-- Calls performed on the native input element. -/
inductive NativeCall where
  | focusNative : NativeCall
deriving DecidableEq

/-- `TextInput.setFocus()`: invokes `focus()` on the native element iff
`isFocus()` currently holds
(`if (this.isFocus()) { this._native.nativeElement.focus(); }`). -/
def setFocus (isFocus : Bool) : List NativeCall :=
  if isFocus then [NativeCall.focusNative] else []

/-- `TextInput.initFocus()` simply delegates to `setFocus()`. -/
def initFocus (isFocus : Bool) : List NativeCall :=
  setFocus isFocus

/-- The clear-on-edit-relevant state of a `TextInput`: the `_clearOnEdit`
flag (`none` models the initial `undefined`), the `_didBlurAfterEdit` flag
and the current value. -/
structure TextInputState where
  clearOnEdit : Option Bool
  didBlurAfterEdit : Bool
  value : String
deriving DecidableEq

/-- Modelled from the spec: `hasValue` (inherited from `util/base-input`,
which is not among the source files) — whether the field currently holds a
non-empty value. -/
def hasValue (s : TextInputState) : Bool :=
  s.value ≠ ""

/-- The clear-on-edit part of `ngOnInit`: a password input whose
`clearOnEdit` input was not explicitly set to `false` defaults to
`clearOnEdit = true`
(`if (this.clearOnEdit !== false && this.type === 'password')`). -/
def ngOnInit (inputType : String) (s : TextInputState) : TextInputState :=
  if s.clearOnEdit ≠ some false ∧ inputType = "password" then
    { s with clearOnEdit := some true }
  else
    s

/-- `_inputFocusChanged(hasFocus)` (clear-on-edit part): when clear-on-edit
is enabled and the input blurs while holding a value, set
`_didBlurAfterEdit`. -/
def inputFocusChanged (hasFocus : Bool) (s : TextInputState) : TextInputState :=
  if s.clearOnEdit = some true ∧ hasFocus = false ∧ hasValue s = true then
    { s with didBlurAfterEdit := true }
  else
    s

/-- `checkClearOnEdit(inputValue)`: when clear-on-edit is enabled, clears
the value if the input was blurred after an edit and still has a value,
then resets `_didBlurAfterEdit`. -/
def checkClearOnEdit (s : TextInputState) : TextInputState :=
  if s.clearOnEdit ≠ some true then
    s
  else
    let s1 := if s.didBlurAfterEdit = true ∧ hasValue s = true then
      { s with value := "" } else s
    { s1 with didBlurAfterEdit := false }

/-- `onKeydown(ev)` with a present event: runs `checkClearOnEdit` when
clear-on-edit is enabled. -/
def onKeydown (s : TextInputState) : TextInputState :=
  if s.clearOnEdit = some true then checkClearOnEdit s else s

end TextInput

/-! ## Helper lemmas -/

theorem jsRound_nonneg {q : ℚ} (h : 0 ≤ q) : 0 ≤ jsRound q := by
  unfold jsRound
  have h1 : (0 : ℤ) ≤ ⌊q + 1/2⌋ := Int.le_floor.mpr (by push_cast; linarith)
  exact_mod_cast h1

theorem jsRound_nonpos {q : ℚ} (h : q ≤ 0) : jsRound q ≤ 0 := by
  unfold jsRound
  have h1 : ⌊q + 1/2⌋ ≤ ⌊(1 : ℚ)/2⌋ := Int.floor_mono (by linarith)
  have h2 : ⌊(1 : ℚ)/2⌋ = 0 := by norm_num
  have h3 : ⌊q + 1/2⌋ ≤ 0 := by omega
  exact_mod_cast h3

/-! ## Claims about the geometry resolver -/

/-- Claim C1: for every field geometry with non-negative height whose top
and bottom both lie within the safe area
`[safeAreaTop, safeAreaBottom]` (with `safeAreaTop = contentTop` and
`safeAreaBottom = safeAreaTop + (plaformHeight - keyboardHeight -
safeAreaTop)/2`), `getScrollData` returns the all-zero plan. -/
theorem getScrollData_zero_plan_of_within
    (inputOffsetTop inputOffsetHeight : ℚ) (dim : ContentDimensions)
    (keyboardHeight plaformHeight : ℚ)
    (hh : 0 ≤ inputOffsetHeight)
    (h1 : dim.contentTop ≤ inputOffsetTop + dim.contentTop - dim.scrollTop)
    (h2 : inputOffsetTop + dim.contentTop - dim.scrollTop ≤
      dim.contentTop + (plaformHeight - keyboardHeight - dim.contentTop) / 2)
    (h3 : dim.contentTop ≤ inputOffsetTop + dim.contentTop - dim.scrollTop + inputOffsetHeight)
    (h4 : inputOffsetTop + dim.contentTop - dim.scrollTop + inputOffsetHeight ≤
      dim.contentTop + (plaformHeight - keyboardHeight - dim.contentTop) / 2) :
    getScrollData inputOffsetTop inputOffsetHeight dim keyboardHeight plaformHeight =
      { scrollAmount := 0, scrollTo := 0, scrollPadding := 0, inputSafeY := 0 } := by
  simp only [getScrollData]
  rw [if_pos ⟨⟨h1, h2⟩, h3, h4⟩]

/-- Witness for claim C1 at a concrete geometry. -/
theorem getScrollData_zero_plan_of_within_witness :
    getScrollData 10 20 ⟨0, 400, 0, 800⟩ 100 500 =
      { scrollAmount := 0, scrollTo := 0, scrollPadding := 0, inputSafeY := 0 } :=
  getScrollData_zero_plan_of_within 10 20 ⟨0, 400, 0, 800⟩ 100 500
    (by norm_num) (by norm_num) (by norm_num) (by norm_num) (by norm_num)

/-- Claim C2 fails as stated: at the worked example of the spec
(`inputOffsetTop = 500`, `inputOffsetHeight = 40`, `contentTop = 0`,
`scrollTop = 0`, `keyboardHeight = 260`, `plaformHeight = 640`) the field
lies below the safe area (`inputTop = 500 > safeAreaBottom = 190`) yet the
computed `scrollAmount` is `-350`, which is not positive. -/
theorem getScrollData_below_not_positive_counterexample :
    ((0 : ℚ) ≤ 40) ∧
    ((0 : ℚ) + ((640 : ℚ) - 260 - 0) / 2 < 500 + 0 - 0) ∧
    (getScrollData 500 40 ⟨0, 0, 0, 0⟩ 260 640).scrollAmount = -350 ∧
    ¬ 0 < (getScrollData 500 40 ⟨0, 0, 0, 0⟩ 260 640).scrollAmount := by
  refine ⟨by norm_num, by norm_num, ?_, ?_⟩ <;> norm_num [getScrollData, jsRound]

/-- Claim C2 (amended): for every field geometry with non-negative height
and non-negative safe-area height, the `scrollAmount` returned by
`getScrollData` is non-positive when the field lies below the safe area
(`inputTop > safeAreaBottom`) and non-negative when the field lies above
the safe area (`inputTop < safeAreaTop`) — the signs are the reverse of the
original claim, and the bounds are weak because rounding can produce `0` at
the boundary. -/
theorem getScrollData_scrollAmount_sign
    (inputOffsetTop inputOffsetHeight : ℚ) (dim : ContentDimensions)
    (keyboardHeight plaformHeight : ℚ)
    (hh : 0 ≤ inputOffsetHeight)
    (hsa : 0 ≤ (plaformHeight - keyboardHeight - dim.contentTop) / 2) :
    (dim.contentTop + (plaformHeight - keyboardHeight - dim.contentTop) / 2 <
        inputOffsetTop + dim.contentTop - dim.scrollTop →
      (getScrollData inputOffsetTop inputOffsetHeight dim keyboardHeight plaformHeight).scrollAmount ≤ 0) ∧
    (inputOffsetTop + dim.contentTop - dim.scrollTop < dim.contentTop →
      0 ≤ (getScrollData inputOffsetTop inputOffsetHeight dim keyboardHeight plaformHeight).scrollAmount) := by
  constructor
  · intro hbelow
    simp only [getScrollData]
    split_ifs with h1 h2 h3 h4 h5 <;> dsimp only
    · norm_num
    · linarith [h4.1]
    · exact jsRound_nonpos (by linarith)
    · linarith [h5.1]
    · exact jsRound_nonpos (by linarith)
    · exact absurd (Or.inl hbelow) h2
  · intro habove
    simp only [getScrollData]
    split_ifs with h1 h2 h3 h4 h5 <;> dsimp only
    · linarith [h1.1.1]
    · exact hh
    · exact jsRound_nonneg (by linarith)
    · exact hh
    · exact jsRound_nonneg (by linarith)
    · exact absurd (Or.inr (Or.inr habove)) h2

/-- Witness for the amended claim C2 at a concrete geometry on each side of
the safe area. -/
theorem getScrollData_scrollAmount_sign_witness :
    ((getScrollData 500 40 ⟨0, 0, 0, 0⟩ 260 640).scrollAmount ≤ 0) ∧
    (0 ≤ (getScrollData (-50) 20 ⟨0, 0, 0, 0⟩ 260 640).scrollAmount) :=
  ⟨(getScrollData_scrollAmount_sign 500 40 ⟨0, 0, 0, 0⟩ 260 640
      (by norm_num) (by norm_num)).1 (by norm_num),
   (getScrollData_scrollAmount_sign (-50) 20 ⟨0, 0, 0, 0⟩ 260 640
      (by norm_num) (by norm_num)).2 (by norm_num)⟩

/-- Claim C3: for every field geometry with non-negative height whose top
lies above the safe area (`inputTop < safeAreaTop`), the `scrollAmount`
returned by `getScrollData` satisfies `|scrollAmount| ≤ inputOffsetHeight`. -/
theorem getScrollData_clamp_above
    (inputOffsetTop inputOffsetHeight : ℚ) (dim : ContentDimensions)
    (keyboardHeight plaformHeight : ℚ)
    (hh : 0 ≤ inputOffsetHeight)
    (habove : inputOffsetTop + dim.contentTop - dim.scrollTop < dim.contentTop) :
    |(getScrollData inputOffsetTop inputOffsetHeight dim keyboardHeight plaformHeight).scrollAmount| ≤
      inputOffsetHeight := by
  simp only [getScrollData]
  split_ifs with h1 h2 h3 h4 h5 <;> dsimp only
  · linarith [h1.1.1]
  · rw [abs_of_nonneg hh]
  · push_neg at h4
    have hge : 0 ≤ jsRound (dim.contentTop + (plaformHeight - keyboardHeight - dim.contentTop) / 2 -
        (inputOffsetTop + dim.contentTop - dim.scrollTop + inputOffsetHeight)) :=
      jsRound_nonneg (by linarith)
    rw [abs_of_nonneg hge]
    exact h4 habove
  · rw [abs_of_nonneg hh]
  · push_neg at h5
    have hge : 0 ≤ jsRound (dim.contentTop - (inputOffsetTop + dim.contentTop - dim.scrollTop)) :=
      jsRound_nonneg (by linarith)
    rw [abs_of_nonneg hge]
    exact h5 habove
  · exact absurd (Or.inr (Or.inr habove)) h2

/-- Witness for claim C3 at a concrete geometry with the field above the
safe area. -/
theorem getScrollData_clamp_above_witness :
    |(getScrollData (-50) 20 ⟨0, 0, 0, 0⟩ 260 640).scrollAmount| ≤ 20 :=
  getScrollData_clamp_above (-50) 20 ⟨0, 0, 0, 0⟩ 260 640 (by norm_num) (by norm_num)

/-- Claim C5: on every input where the field is not fully inside the safe
area — that is, on every path other than the fully-within early return —
the plan returned by `getScrollData` has `scrollPadding = keyboardHeight`,
even when the computed `scrollAmount` is `0`. -/
theorem getScrollData_scrollPadding_eq_keyboardHeight
    (inputOffsetTop inputOffsetHeight : ℚ) (dim : ContentDimensions)
    (keyboardHeight plaformHeight : ℚ)
    (hh : 0 ≤ inputOffsetHeight)
    (hnot : ¬ ((dim.contentTop ≤ inputOffsetTop + dim.contentTop - dim.scrollTop ∧
        inputOffsetTop + dim.contentTop - dim.scrollTop ≤
          dim.contentTop + (plaformHeight - keyboardHeight - dim.contentTop) / 2) ∧
      (dim.contentTop ≤ inputOffsetTop + dim.contentTop - dim.scrollTop + inputOffsetHeight ∧
        inputOffsetTop + dim.contentTop - dim.scrollTop + inputOffsetHeight ≤
          dim.contentTop + (plaformHeight - keyboardHeight - dim.contentTop) / 2))) :
    (getScrollData inputOffsetTop inputOffsetHeight dim keyboardHeight plaformHeight).scrollPadding =
      keyboardHeight := by
  simp only [getScrollData]
  split_ifs with h1 h2 h3 h4 h5 <;> first | exact absurd h1 hnot | rfl

/-- Witness for claim C5 at a concrete geometry where the field is not
fully inside the safe area yet the computed `scrollAmount` is `0`: the
plan still carries `scrollPadding = keyboardHeight = 260`. -/
theorem getScrollData_scrollPadding_eq_keyboardHeight_witness :
    (getScrollData (761/4) 0 ⟨0, 0, 0, 0⟩ 260 640).scrollPadding = 260 ∧
    (getScrollData (761/4) 0 ⟨0, 0, 0, 0⟩ 260 640).scrollAmount = 0 :=
  ⟨getScrollData_scrollPadding_eq_keyboardHeight (761/4) 0 ⟨0, 0, 0, 0⟩ 260 640
      (by norm_num) (by norm_num),
   by norm_num [getScrollData, jsRound]⟩

/-- Claim C4 (code bug in clone mode): when the computed plan has
`|scrollAmount| < 4`, the `initFocus` closure performs no scroll animation
and takes no interaction lock — it sets focus, re-enables the global app
gate and returns, for every value of the cloning flag.  When
`|scrollAmount| ≥ 4` it disables the global gate for exactly the computed
scroll-assist duration; with cloning disabled it then sets focus and starts
the scroll animation as claimed, but with cloning enabled the call to
`beginFocus(true, inputSafeY)` throws a `TypeError` (plain nested
`function`, `this` is not the component), so the closure aborts: no
`scrollTo` and no `setFocus` ever run, contradicting the claim's "starts
the scroll animation". -/
theorem initFocus_clone_mode_aborts
    (inputOffsetTop inputOffsetHeight : ℚ) (dim : ContentDimensions)
    (keyboardHeight plaformHeight : ℚ) (clone : Bool) :
    (|(getScrollData inputOffsetTop inputOffsetHeight dim keyboardHeight plaformHeight).scrollAmount| < 4 →
      ScrollAssist.initFocus inputOffsetTop inputOffsetHeight dim keyboardHeight plaformHeight clone =
        ([FocusAction.setFocus, FocusAction.setEnabled true none], false)) ∧
    (4 ≤ |(getScrollData inputOffsetTop inputOffsetHeight dim keyboardHeight plaformHeight).scrollAmount| →
      FocusAction.setEnabled false
          (some (getScrollAssistDuration
            (getScrollData inputOffsetTop inputOffsetHeight dim keyboardHeight plaformHeight).scrollAmount)) ∈
        (ScrollAssist.initFocus inputOffsetTop inputOffsetHeight dim keyboardHeight plaformHeight clone).1 ∧
      (clone = false →
        FocusAction.scrollTo 0
            (getScrollData inputOffsetTop inputOffsetHeight dim keyboardHeight plaformHeight).scrollTo
            (getScrollAssistDuration
              (getScrollData inputOffsetTop inputOffsetHeight dim keyboardHeight plaformHeight).scrollAmount) ∈
          (ScrollAssist.initFocus inputOffsetTop inputOffsetHeight dim keyboardHeight plaformHeight clone).1 ∧
        (ScrollAssist.initFocus inputOffsetTop inputOffsetHeight dim keyboardHeight plaformHeight clone).2 = false) ∧
      (clone = true →
        (ScrollAssist.initFocus inputOffsetTop inputOffsetHeight dim keyboardHeight plaformHeight clone).2 = true ∧
        (∀ y dur : ℚ, FocusAction.scrollTo 0 y dur ∉
          (ScrollAssist.initFocus inputOffsetTop inputOffsetHeight dim keyboardHeight plaformHeight clone).1) ∧
        FocusAction.setFocus ∉
          (ScrollAssist.initFocus inputOffsetTop inputOffsetHeight dim keyboardHeight plaformHeight clone).1)) := by
  constructor
  · intro hlt
    simp only [ScrollAssist.initFocus, if_pos hlt]
  · intro hge
    have hnot :
        ¬ |(getScrollData inputOffsetTop inputOffsetHeight dim keyboardHeight plaformHeight).scrollAmount| < 4 :=
      not_lt.mpr hge
    refine ⟨?_, ?_, ?_⟩
    · simp only [ScrollAssist.initFocus, if_neg hnot]
      cases clone <;> simp
    · intro hc
      subst hc
      simp [ScrollAssist.initFocus, if_neg hnot]
    · intro hc
      subst hc
      simp [ScrollAssist.initFocus, if_neg hnot]

/-- Witness for claim C4: a field fully inside the safe area yields the
no-animation trace; at the worked example of the spec (scroll amount
`-350`) the gate is disabled for the computed duration, the no-clone run
starts the scroll animation, and the clone-mode run throws instead. -/
theorem initFocus_clone_mode_aborts_witness :
    (ScrollAssist.initFocus 10 20 ⟨0, 400, 0, 800⟩ 100 500 true =
      ([FocusAction.setFocus, FocusAction.setEnabled true none], false)) ∧
    (FocusAction.setEnabled false
        (some (getScrollAssistDuration (getScrollData 500 40 ⟨0, 0, 0, 0⟩ 260 640).scrollAmount)) ∈
      (ScrollAssist.initFocus 500 40 ⟨0, 0, 0, 0⟩ 260 640 true).1) ∧
    (FocusAction.scrollTo 0 (getScrollData 500 40 ⟨0, 0, 0, 0⟩ 260 640).scrollTo
        (getScrollAssistDuration (getScrollData 500 40 ⟨0, 0, 0, 0⟩ 260 640).scrollAmount) ∈
      (ScrollAssist.initFocus 500 40 ⟨0, 0, 0, 0⟩ 260 640 false).1) ∧
    ((ScrollAssist.initFocus 500 40 ⟨0, 0, 0, 0⟩ 260 640 true).2 = true) :=
  ⟨(initFocus_clone_mode_aborts 10 20 ⟨0, 400, 0, 800⟩ 100 500 true).1
      (by norm_num [getScrollData]),
   ((initFocus_clone_mode_aborts 500 40 ⟨0, 0, 0, 0⟩ 260 640 true).2
      (by norm_num [getScrollData, jsRound])).1,
   (((initFocus_clone_mode_aborts 500 40 ⟨0, 0, 0, 0⟩ 260 640 false).2
      (by norm_num [getScrollData, jsRound])).2.1 rfl).1,
   (((initFocus_clone_mode_aborts 500 40 ⟨0, 0, 0, 0⟩ 260 640 true).2
      (by norm_num [getScrollData, jsRound])).2.2 rfl).1⟩

/-- Claim C6: `getScrollAssistDuration d` equals
`clamp(|d| / 0.3, 150, 400)`: it is non-decreasing in `|d|`, always within
`[150, 400]`, and equals `|d| / 0.3` whenever that quotient lies within
`[150, 400]`. -/
theorem getScrollAssistDuration_clamp :
    ∀ d : ℚ,
      getScrollAssistDuration d = min 400 (max 150 (|d| / SCROLL_ASSIST_SPEED)) ∧
      150 ≤ getScrollAssistDuration d ∧
      getScrollAssistDuration d ≤ 400 ∧
      (∀ e : ℚ, |d| ≤ |e| → getScrollAssistDuration d ≤ getScrollAssistDuration e) ∧
      (150 ≤ |d| / SCROLL_ASSIST_SPEED → |d| / SCROLL_ASSIST_SPEED ≤ 400 →
        getScrollAssistDuration d = |d| / SCROLL_ASSIST_SPEED) := by
  intro d
  refine ⟨rfl, ?_, ?_, ?_, ?_⟩
  · exact le_min (by norm_num) (le_max_left _ _)
  · exact min_le_left _ _
  · intro e he
    have hdiv : |d| / SCROLL_ASSIST_SPEED ≤ |e| / SCROLL_ASSIST_SPEED :=
      (div_le_div_iff_of_pos_right (by norm_num [SCROLL_ASSIST_SPEED])).mpr he
    exact min_le_min le_rfl (max_le_max le_rfl hdiv)
  · intro h150 h400
    simp only [getScrollAssistDuration]
    rw [max_eq_right h150, min_eq_right h400]

/-- Witness for claim C6 at `d = 90`: the quotient `|90| / 0.3 = 300` lies
inside `[150, 400]` and the duration equals it. -/
theorem getScrollAssistDuration_clamp_witness :
    getScrollAssistDuration 90 = |(90 : ℚ)| / SCROLL_ASSIST_SPEED ∧
    getScrollAssistDuration 90 = 300 :=
  ⟨(getScrollAssistDuration_clamp 90).2.2.2.2
      (by rw [abs_of_nonneg (by norm_num)]; norm_num [SCROLL_ASSIST_SPEED])
      (by rw [abs_of_nonneg (by norm_num)]; norm_num [SCROLL_ASSIST_SPEED]),
   by simp only [getScrollAssistDuration, SCROLL_ASSIST_SPEED]
      rw [abs_of_nonneg (by norm_num : (0 : ℚ) ≤ 90)]
      norm_num⟩

/-- Claim C7: on pointer-up, when the global gate is disabled the handler
suppresses the default action and stops propagation without initiating
focus; when the gate is enabled, a displacement below the 8-unit threshold
on a not-yet-focused field suppresses the default action and initiates
focus, and a displacement of 8 units or more initiates no focus. -/
theorem pointerUp_gate_and_threshold :
    ∀ (appEnabled : Bool) (coord endCoord : ScrollAssist.PointerCoordinates) (isFocus : Bool),
      (appEnabled = false →
        ScrollAssist.pointerUp appEnabled coord endCoord isFocus =
          { preventDefault := true, stopPropagation := true, initFocusCalled := false }) ∧
      (appEnabled = true →
        (coord.x - endCoord.x) ^ 2 + (coord.y - endCoord.y) ^ 2 < 8 ^ 2 →
        isFocus = false →
        ScrollAssist.pointerUp appEnabled coord endCoord isFocus =
          { preventDefault := true, stopPropagation := true, initFocusCalled := true }) ∧
      (8 ^ 2 ≤ (coord.x - endCoord.x) ^ 2 + (coord.y - endCoord.y) ^ 2 →
        (ScrollAssist.pointerUp appEnabled coord endCoord isFocus).initFocusCalled = false) := by
  intro appEnabled coord endCoord isFocus
  refine ⟨?_, ?_, ?_⟩
  · intro h
    subst h
    rfl
  · intro h hm hf
    subst h
    subst hf
    have hmov : ScrollAssist.hasPointerMoved 8 coord endCoord = false := by
      simp [ScrollAssist.hasPointerMoved, not_le.mpr hm]
    simp [ScrollAssist.pointerUp, hmov]
  · intro hm
    have hmov : ScrollAssist.hasPointerMoved 8 coord endCoord = true := by
      simp [ScrollAssist.hasPointerMoved, hm]
    cases appEnabled <;> simp [ScrollAssist.pointerUp, hmov]

/-- Witness for claim C7 at the spec fixtures: a closed gate swallows the
tap; pointer-down `(100,100)` with pointer-up `(103,104)` (displacement 5)
initiates focus; pointer-up `(100,120)` (displacement 20) does not. -/
theorem pointerUp_gate_and_threshold_witness :
    (ScrollAssist.pointerUp false ⟨100, 100⟩ ⟨103, 104⟩ false =
      { preventDefault := true, stopPropagation := true, initFocusCalled := false }) ∧
    (ScrollAssist.pointerUp true ⟨100, 100⟩ ⟨103, 104⟩ false =
      { preventDefault := true, stopPropagation := true, initFocusCalled := true }) ∧
    ((ScrollAssist.pointerUp true ⟨100, 100⟩ ⟨100, 120⟩ false).initFocusCalled = false) :=
  ⟨(pointerUp_gate_and_threshold false ⟨100, 100⟩ ⟨103, 104⟩ false).1 rfl,
   (pointerUp_gate_and_threshold true ⟨100, 100⟩ ⟨103, 104⟩ false).2.1 rfl (by norm_num) rfl,
   (pointerUp_gate_and_threshold true ⟨100, 100⟩ ⟨100, 120⟩ false).2.2 (by norm_num)⟩

/-- Claim C8 (code bug): the claimed idempotence is the evident intent of
the `relocated` guard, but `relocate(true, y)` twice does not produce
exactly one clone — it produces none.  Evaluating the code at the failing
input: the first `beginFocus(true, 5)` from the initial state passes the
guard, sets `relocated` and throws a `TypeError` at
`this._native.nativeElement` before `cloneInputComponent` runs, so after a
second call (which returns at the guard) the clone count is still `0`, not
`1`.  The no-op half of the claim does hold: `beginFocus(false, 5)` on a
not-relocated state returns at the guard without touching anything. -/
theorem beginFocus_throws_before_clone :
    ((ScrollAssist.beginFocus true 5 { relocated := false, clones := 0 }).2 =
      ScrollAssist.BeginFocusOutcome.threw) ∧
    ((ScrollAssist.beginFocus true 5
        ((ScrollAssist.beginFocus true 5 { relocated := false, clones := 0 }).1)).1.clones = 0) ∧
    ¬ ((ScrollAssist.beginFocus true 5
        ((ScrollAssist.beginFocus true 5 { relocated := false, clones := 0 }).1)).1.clones = 1) ∧
    (ScrollAssist.beginFocus false 5 { relocated := false, clones := 0 } =
      ({ relocated := false, clones := 0 }, ScrollAssist.BeginFocusOutcome.returned)) := by
  refine ⟨?_, ?_, ?_, ?_⟩ <;> simp [ScrollAssist.beginFocus]

/-- Claim C9: a password field whose `clearOnEdit` input was not explicitly
set to `false` defaults to `clearOnEdit = true` at init; a field with
clear-on-edit enabled that blurs while holding a non-empty value is cleared
exactly once by the first subsequent keystroke — the value is emptied, the
`_didBlurAfterEdit` flag is reset, and further keystrokes on a state with
the flag reset leave the state unchanged. -/
theorem clearOnEdit_password_clears_once :
    ∀ s : TextInput.TextInputState,
      (s.clearOnEdit ≠ some false →
        (TextInput.ngOnInit "password" s).clearOnEdit = some true) ∧
      (s.clearOnEdit = some true → s.value ≠ "" →
        (TextInput.onKeydown (TextInput.inputFocusChanged false s)).value = "" ∧
        (TextInput.onKeydown (TextInput.inputFocusChanged false s)).didBlurAfterEdit = false) ∧
      (∀ v : String,
        TextInput.onKeydown
            { clearOnEdit := some true, didBlurAfterEdit := false, value := v } =
          { clearOnEdit := some true, didBlurAfterEdit := false, value := v }) := by
  intro s
  refine ⟨?_, ?_, ?_⟩
  · intro hco
    simp [TextInput.ngOnInit, hco]
  · intro hco hv
    obtain ⟨co, flag, v⟩ := s
    simp only at hco hv
    subst hco
    simp [TextInput.inputFocusChanged, TextInput.onKeydown, TextInput.checkClearOnEdit,
      TextInput.hasValue, hv]
  · intro v
    simp [TextInput.onKeydown, TextInput.checkClearOnEdit, TextInput.hasValue]

/-- Witness for claim C9: an untouched password field defaults to
`clearOnEdit = true`, and a blurred field holding `"secret"` is emptied by
the next keystroke. -/
theorem clearOnEdit_password_clears_once_witness :
    ((TextInput.ngOnInit "password"
        { clearOnEdit := none, didBlurAfterEdit := false, value := "" }).clearOnEdit = some true) ∧
    ((TextInput.onKeydown (TextInput.inputFocusChanged false
        { clearOnEdit := some true, didBlurAfterEdit := false, value := "secret" })).value = "") :=
  ⟨(clearOnEdit_password_clears_once
      { clearOnEdit := none, didBlurAfterEdit := false, value := "" }).1 (by simp),
   ((clearOnEdit_password_clears_once
      { clearOnEdit := some true, didBlurAfterEdit := false, value := "secret" }).2.1
      rfl (by decide)).1⟩

/-- Claim C10: `TextInput.setFocus` invokes the native element's `focus()`
only when the field already reports having focus, performs no action when
it is not focused, and `TextInput.initFocus` delegates to it. -/
theorem setFocus_only_when_already_focused :
    TextInput.setFocus true = [TextInput.NativeCall.focusNative] ∧
    TextInput.setFocus false = [] ∧
    ∀ isFocus : Bool, TextInput.initFocus isFocus = TextInput.setFocus isFocus :=
  ⟨rfl, rfl, fun _ => rfl⟩
